import Mathlib

/-!
# General-lingo handler (`lingo-general/handler.go`)

A shallow embedding of `ackFIDTokens` and `HandleGeneral`, followed by the
properties established about them.

Conventions of the embedding:

* Go machine integers (`uint8`, `uint16`, `uint32`, `uint64`) are `Nat`; the
  handler performs no arithmetic on them, it only copies and compares them.
* `[]byte` is `List Nat`; `bytes.Buffer.Write` appends to the list.
* `log.Printf` has no effect on the device or on the packet writer and is
  left out.
-/

namespace General

/-! ## FID tokens -/

/-- One FID token of a `SetFIDTokenValues` message. `ackFIDTokens` reads the
two fields `FIDType` and `FIDSubtype` and nothing else of a token. -/
structure FIDTokenValue where
  FIDType : Nat
  FIDSubtype : Nat
  deriving DecidableEq, Repr

/-- The `SetFIDTokenValues` message: `ackFIDTokens` reads the declared count
`NumFIDTokenValues` and ranges over the slice `FIDTokenValues`; they are two
separate fields of the Go struct. -/
structure SetFIDTokenValues where
  NumFIDTokenValues : Nat
  FIDTokenValues : List FIDTokenValue
  deriving DecidableEq, Repr

/-- The `RetFIDTokenValueACKs` message built by `ackFIDTokens`. -/
structure RetFIDTokenValueACKs where
  NumFIDTokenValueACKs : Nat
  FIDTokenValueACKs : List Nat
  deriving DecidableEq, Repr

/-- Body of the `for _, token := range tokens.FIDTokenValues` loop of
`ackFIDTokens` (handler.go lines 46-79): the buffer after the iteration for
`token`, given the buffer `buf` before it. -/
def ackFIDTokens.loopBody (buf : List Nat) (token : FIDTokenValue) : List Nat :=
  match token.FIDType with
  | 0x00 =>
    match token.FIDSubtype with
    | 0x00 => buf ++ [0x03, 0x00, 0x00, 0x00]
    | 0x01 => buf ++ [0x03, 0x00, 0x01, 0x00]
    | 0x02 => buf ++ [0x04, 0x00, 0x02, 0x00]
    | 0x03 => buf ++ [0x04, 0x00, 0x03, 0x00, 0x00]
    | 0x04 => buf ++ [0x04, 0x00, 0x04, 0x00, 0x00]
    | 0x05 => buf ++ [0x03, 0x00, 0x05, 0x00]
    | 0x07 => buf ++ [0x03, 0x00, 0x07, 0x00]
    | 0x08 => buf ++ [0x03, 0x00, 0x08, 0x00]
    | _ => buf
  | 0x01 => buf ++ [0x03, 0x01, 0x00, 0x00]
  | _ => buf

/-- The function `ackFIDTokens` (handler.go lines 42-83): the count is copied
from the message, the bytes are what the loop leaves in the buffer. -/
def ackFIDTokens (tokens : SetFIDTokenValues) : RetFIDTokenValueACKs :=
  { NumFIDTokenValueACKs := tokens.NumFIDTokenValues
    FIDTokenValueACKs := tokens.FIDTokenValues.foldl ackFIDTokens.loopBody [] }

/-- The nine-entry table of section 4.4 of the specification, keyed by
(type, subtype); `none` for a pair the table does not list. Written from the
specification, to be compared with `ackFIDTokens`. -/
def specTable (ty sub : Nat) : Option (List Nat) :=
  if ty = 0x00 ∧ sub = 0x00 then some [0x03, 0x00, 0x00, 0x00]
  else if ty = 0x00 ∧ sub = 0x01 then some [0x03, 0x00, 0x01, 0x00]
  else if ty = 0x00 ∧ sub = 0x02 then some [0x04, 0x00, 0x02, 0x00]
  else if ty = 0x00 ∧ sub = 0x03 then some [0x04, 0x00, 0x03, 0x00, 0x00]
  else if ty = 0x00 ∧ sub = 0x04 then some [0x04, 0x00, 0x04, 0x00, 0x00]
  else if ty = 0x00 ∧ sub = 0x05 then some [0x03, 0x00, 0x05, 0x00]
  else if ty = 0x00 ∧ sub = 0x07 then some [0x03, 0x00, 0x07, 0x00]
  else if ty = 0x00 ∧ sub = 0x08 then some [0x03, 0x00, 0x08, 0x00]
  else if ty = 0x01 ∧ sub = 0x00 then some [0x03, 0x01, 0x00, 0x00]
  else none

/-! ## Enumerations used by the handler

The Go declarations of these types are outside `handler.go`. Each is a named
integer type with named constants; a value of such a type that is none of the
constants the handler mentions is written `other raw`. -/

/-- The type `UIMode`, whose Go declaration is outside handler.go. The handler
names two of its values, the constants `UIModeStandart` and `UIModeExtended`
(the Standard and Extended of section 3 of the specification). A Go type
cannot be closed to two named constants, and `dev.UIMode()` is an interface
method free to return any value of the type: `other raw` stands for a value
that is neither constant. -/
inductive UIMode where
  | UIModeStandart
  | UIModeExtended
  | other (raw : Nat)
  deriving DecidableEq, Repr

/-- Status byte of `ACK` and `ACKPending`. -/
inductive ACKStatus where
  | ACKStatusSuccess
  | ACKStatusPending
  | other (raw : Nat)
  deriving DecidableEq, Repr

/-- Status byte of `AckDevAuthenticationInfo`. -/
inductive DevAuthInfoStatus where
  | DevAuthInfoStatusSupported
  | other (raw : Nat)
  deriving DecidableEq, Repr

/-- Status byte of `AckDevAuthenticationStatus`. -/
inductive DevAuthStatus where
  | DevAuthStatusPassed
  | other (raw : Nat)
  deriving DecidableEq, Repr

/-- Status byte of the outbound `IDPSStatus` message. -/
inductive IDPSStatusCode where
  | IDPSStatusOK
  | IDPSStatusTimeLimitNotExceeded
  | IDPSStatusWillNotAccept
  | other (raw : Nat)
  deriving DecidableEq, Repr

/-- Outcome code carried by the inbound `EndIDPS` message. -/
inductive AccEndIDPSStatus where
  | AccEndIDPSStatusContinue
  | AccEndIDPSStatusReset
  | AccEndIDPSStatusAbandon
  | AccEndIDPSStatusNewLink
  | other (raw : Nat)
  deriving DecidableEq, Repr

/-! ## Messages -/

/-- The `ACK` message, with the two fields `ackSuccess` sets. -/
structure ACK where
  Status : ACKStatus
  CmdID : Nat
  deriving DecidableEq, Repr

/-- The `ACKPending` message, with the three fields `ackPending` sets. -/
structure ACKPending where
  Status : ACKStatus
  CmdID : Nat
  MaxWait : Nat
  deriving DecidableEq, Repr

/-- Inbound payloads: one constructor for each `case` of the type switch in
`HandleGeneral`, carrying the fields the handler reads, and `other` for a
payload of any other dynamic type (the `default` arm). The fields `Signature`
and `UIMode` are not read by the handler; they are the content the
specification attributes to those messages. -/
inductive Payload where
  | RequestRemoteUIMode
  | EnterRemoteUIMode
  | ExitRemoteUIMode
  | RequestiPodName
  | RequestiPodSoftwareVersion
  | RequestiPodSerialNum
  | RequestLingoProtocolVersion (Lingo : Nat)
  | RequestTransportMaxPayloadSize
  | IdentifyDeviceLingoes
  | RetDevAuthenticationInfoV1
  | RetDevAuthenticationInfoV2 (CertCurrentSection CertMaxSection : Nat)
  | RetDevAuthenticationSignatureV1 (Signature : List Nat)
  | RetDevAuthenticationSignatureV2 (Signature : List Nat)
  | GetiPodAuthenticationInfo
  | AckiPodAuthenticationInfo
  | GetiPodAuthenticationSignature (Challenge : List Nat)
  | AckiPodAuthenticationStatus
  | GetiPodOptions
  | RetAccessoryInfo
  | GetiPodPreferences (PrefClassID : Nat)
  | SetiPodPreferences (PrefClassID PrefClassSettingID RestoreOnExit : Nat)
  | GetUIMode
  | SetUIMode (UIMode : General.UIMode)
  | StartIDPS
  | SetFIDTokenValues (msg : General.SetFIDTokenValues)
  | EndIDPS (AccEndIDPSStatus : General.AccEndIDPSStatus)
  | AccessoryStatusNotification
  | SetEventNotification (EventMask : Nat)
  | GetiPodOptionsForLingo (LingoID : Nat)
  | GetEventNotification
  | GetSupportedEventNotification
  | CancelCommand (LingoID CmdID TransactionID : Nat)
  | SetAvailableCurrent
  | RequestApplicationLaunch
  | GetNowPlayingFocusApp
  | other (dynamicType : Nat)
  deriving DecidableEq, Repr

/-- Outbound payloads: one constructor for each message value `HandleGeneral`
passes to `ipod.Respond`, with the fields the handler sets (a field the
handler leaves unset keeps its zero value and is not listed). -/
inductive Response where
  | ACK (v : General.ACK)
  | ACKPending (v : General.ACKPending)
  | ReturnRemoteUIMode (Mode : Nat)
  | ReturniPodName (Name : List Nat)
  | ReturniPodSoftwareVersion (Major Minor Rev : Nat)
  | ReturniPodSerialNum (Serial : List Nat)
  | ReturnLingoProtocolVersion (Major Minor : Nat)
  | ReturnTransportMaxPayloadSize (MaxPayload : Nat)
  | AckDevAuthenticationInfo (Status : DevAuthInfoStatus)
  | AckDevAuthenticationStatus (Status : DevAuthStatus)
  | RetiPodAuthenticationInfo (Major Minor CertCurrentSection CertMaxSection : Nat)
      (CertData : List Nat)
  | RetiPodAuthenticationSignature (Signature : List Nat)
  | RetiPodOptions (Options : Nat)
  | RetiPodPreferences (PrefClassID PrefClassSettingID : Nat)
  | RetUIMode (UIMode : General.UIMode)
  | RetFIDTokenValueACKs (v : General.RetFIDTokenValueACKs)
  | IDPSStatus (Status : IDPSStatusCode)
  | GetDevAuthenticationInfo
  | RetiPodOptionsForLingo (LingoID Options : Nat)
  | RetEventNotification (EventMask : Nat)
  | RetSupportedEventNotification (EventMask : Nat)
  | RetNowPlayingFocusApp (AppID : List Nat)
  deriving DecidableEq, Repr

/-- Modelled from the spec: the command identifier `req.ID` of a packet
(section 6, "transaction/command identifiers"); its declaration and its method
`CmdID()` are outside handler.go. `CmdID` is the value `req.ID.CmdID()`
returns. -/
structure LingoCmdID where
  LingoID : Nat
  CmdID : Nat
  deriving DecidableEq, Repr

/-- The `ipod.Packet` handed to `HandleGeneral`, with the three fields the
handler uses. `Transaction` is a pointer in the source (the handler writes
`*req.Transaction`): `none` is the nil pointer, `some t` a pointer to a slot
holding `t`. -/
structure Packet where
  ID : LingoCmdID
  Transaction : Option Nat
  Payload : General.Payload
  deriving DecidableEq, Repr

/-- Helpers of package `ipod` that handler.go calls and that are declared
outside it; they are taken as parameters. -/
structure IpodLib where
  StringToBytes : String → List Nat
  BoolToByte : Bool → Nat
  ByteToBool : Nat → Bool

/-! ## The device interface -/

/-- The interface `DeviceGeneral` (handler.go lines 10-32) over a device state
`σ`: a method without result maps the state before the call to the state
after it, a method with a result reads the state. -/
structure DeviceGeneral (σ : Type) where
  UIMode : σ → General.UIMode
  SetUIMode : General.UIMode → σ → σ
  Name : σ → String
  SoftwareVersion : σ → Nat × Nat × Nat
  SerialNum : σ → String
  LingoProtocolVersion : Nat → σ → Nat × Nat
  LingoOptions : Nat → σ → Nat
  PrefSettingID : Nat → σ → Nat
  SetPrefSettingID : Nat → Nat → Bool → σ → σ
  StartIDPS : σ → σ
  SetEventNotificationMask : Nat → σ → σ
  EventNotificationMask : σ → Nat
  SupportedEventNotificationMask : σ → Nat
  CancelCommand : Nat → Nat → Nat → σ → σ
  MaxPayload : σ → Nat

/-- A call of a `DeviceGeneral` method together with its arguments. -/
inductive DevCall where
  | UIMode
  | SetUIMode (mode : General.UIMode)
  | Name
  | SoftwareVersion
  | SerialNum
  | LingoProtocolVersion (lingo : Nat)
  | LingoOptions (lingo : Nat)
  | PrefSettingID (classID : Nat)
  | SetPrefSettingID (classID settingID : Nat) (restoreOnExit : Bool)
  | StartIDPS
  | SetEventNotificationMask (mask : Nat)
  | EventNotificationMask
  | SupportedEventNotificationMask
  | CancelCommand (lingo cmd transaction : Nat)
  | MaxPayload
  deriving DecidableEq, Repr

/-- The methods of `DeviceGeneral` that return nothing: they are the ones
through which the handler changes the device. -/
def DevCall.isMutator : DevCall → Bool
  | .SetUIMode _ => true
  | .SetPrefSettingID _ _ _ => true
  | .StartIDPS => true
  | .SetEventNotificationMask _ => true
  | .CancelCommand _ _ _ => true
  | _ => false

/-- One observable step of a run of `HandleGeneral`: a packet written to the
`PacketWriter` with the transaction identifier it is tagged with (`none` when
the request has no transaction slot), or a call of a device method. -/
inductive Event where
  | send (transaction : Option Nat) (payload : Response)
  | call (c : DevCall)
  deriving DecidableEq, Repr

/-! ## The handler -/

/-- The function `ackSuccess` (handler.go lines 34-36). -/
def ackSuccess (req : Packet) : ACK :=
  { Status := ACKStatus.ACKStatusSuccess, CmdID := req.ID.CmdID }

/-- The function `ackPending` (handler.go lines 38-40). -/
def ackPending (req : Packet) (maxWait : Nat) : ACKPending :=
  { Status := ACKStatus.ACKStatusPending, CmdID := req.ID.CmdID, MaxWait := maxWait }

/-- What a run of `HandleGeneral` has done so far: the device state, the
content of the slot `req.Transaction` points to (`none` for a nil pointer)
and the events in the order they happened. -/
structure HandlerState (σ : Type) where
  dev : σ
  transaction : Option Nat
  trace : List Event

/-- A device method with a result is called: the call is recorded. -/
def HandlerState.query {σ : Type} (c : DevCall) (st : HandlerState σ) : HandlerState σ :=
  { st with trace := st.trace ++ [Event.call c] }

/-- A device method without result is called: the call is recorded and the
device moves to the state the method leaves it in. -/
def HandlerState.command {σ : Type} (c : DevCall) (f : σ → σ) (st : HandlerState σ) :
    HandlerState σ :=
  { st with dev := f st.dev, trace := st.trace ++ [Event.call c] }

/-- Modelled from the spec: `ipod.Respond(req, tr, payload)`, which is outside
handler.go. By section 6 the transport "accepts an ordered sequence of
outbound ResponseMessage values tagged with a transaction identifier": the
payload is written to `tr` after whatever was written before, tagged with the
identifier the slot of `req.Transaction` holds at the time of the call. -/
def Respond {σ : Type} (payload : Response) (st : HandlerState σ) : HandlerState σ :=
  { st with trace := st.trace ++ [Event.send st.transaction payload] }

/-- How a call of `HandleGeneral` ends: it returns the error value `nil` (the
only `return` of the function), or it does not return because a statement
panicked. -/
inductive Completion where
  | returnedNil
  | panicked
  deriving DecidableEq, Repr

/-- Result of a call of `HandleGeneral`: the state reached and how the call
ended. -/
structure Outcome (σ : Type) where
  state : HandlerState σ
  completion : Completion

/-- The function `HandleGeneral` (handler.go lines 85-245). `req` is the
request, `dev` the device behind the interface and `s` its state on entry; the
packets written to `tr` are the `send` events of the resulting trace. The
assignment `*req.Transaction = 0x0001` writes through the pointer: on a nil
pointer it panics, otherwise the slot holds `0x0001` from then on. -/
def HandleGeneral {σ : Type} (lib : IpodLib) (req : Packet) (dev : DeviceGeneral σ) (s : σ) :
    Outcome σ :=
  let st : HandlerState σ := { dev := s, transaction := req.Transaction, trace := [] }
  match req.Payload with
  | .RequestRemoteUIMode =>
    let st := st.query .UIMode
    let st := Respond
      (.ReturnRemoteUIMode (lib.BoolToByte (decide (dev.UIMode st.dev = .UIModeExtended)))) st
    ⟨st, .returnedNil⟩
  | .EnterRemoteUIMode =>
    let st := st.query .UIMode
    if dev.UIMode st.dev = .UIModeExtended then
      let st := Respond (.ACK (ackSuccess req)) st
      ⟨st, .returnedNil⟩
    else
      let st := Respond (.ACKPending (ackPending req 300)) st
      let st := st.command (.SetUIMode .UIModeExtended) (dev.SetUIMode .UIModeExtended)
      let st := Respond (.ACK (ackSuccess req)) st
      ⟨st, .returnedNil⟩
  | .ExitRemoteUIMode =>
    let st := st.query .UIMode
    if dev.UIMode st.dev ≠ .UIModeExtended then
      let st := Respond (.ACK (ackSuccess req)) st
      ⟨st, .returnedNil⟩
    else
      let st := Respond (.ACKPending (ackPending req 300)) st
      let st := st.command (.SetUIMode .UIModeStandart) (dev.SetUIMode .UIModeStandart)
      let st := Respond (.ACK (ackSuccess req)) st
      ⟨st, .returnedNil⟩
  | .RequestiPodName =>
    let st := st.query .Name
    let st := Respond (.ReturniPodName (lib.StringToBytes (dev.Name st.dev))) st
    ⟨st, .returnedNil⟩
  | .RequestiPodSoftwareVersion =>
    let st := st.query .SoftwareVersion
    let v := dev.SoftwareVersion st.dev
    let st := Respond (.ReturniPodSoftwareVersion v.1 v.2.1 v.2.2) st
    ⟨st, .returnedNil⟩
  | .RequestiPodSerialNum =>
    let st := st.query .SerialNum
    let st := Respond (.ReturniPodSerialNum (lib.StringToBytes (dev.SerialNum st.dev))) st
    ⟨st, .returnedNil⟩
  | .RequestLingoProtocolVersion lingo =>
    let st := st.query (.LingoProtocolVersion lingo)
    let v := dev.LingoProtocolVersion lingo st.dev
    let st := Respond (.ReturnLingoProtocolVersion v.1 v.2) st
    ⟨st, .returnedNil⟩
  | .RequestTransportMaxPayloadSize =>
    let st := st.query .MaxPayload
    let st := Respond (.ReturnTransportMaxPayloadSize (dev.MaxPayload st.dev)) st
    ⟨st, .returnedNil⟩
  | .IdentifyDeviceLingoes =>
    let st := Respond (.ACK (ackSuccess req)) st
    ⟨st, .returnedNil⟩
  | .RetDevAuthenticationInfoV1 =>
    let st := Respond (.AckDevAuthenticationInfo .DevAuthInfoStatusSupported) st
    ⟨st, .returnedNil⟩
  | .RetDevAuthenticationInfoV2 certCurrentSection certMaxSection =>
    if certCurrentSection < certMaxSection then
      let st := Respond (.ACK (ackSuccess req)) st
      ⟨st, .returnedNil⟩
    else
      let st := Respond (.AckDevAuthenticationInfo .DevAuthInfoStatusSupported) st
      ⟨st, .returnedNil⟩
  | .RetDevAuthenticationSignatureV1 _ =>
    let st := Respond (.AckDevAuthenticationStatus .DevAuthStatusPassed) st
    ⟨st, .returnedNil⟩
  | .RetDevAuthenticationSignatureV2 _ =>
    let st := Respond (.AckDevAuthenticationStatus .DevAuthStatusPassed) st
    ⟨st, .returnedNil⟩
  | .GetiPodAuthenticationInfo =>
    let st := Respond (.RetiPodAuthenticationInfo 1 1 0 0 []) st
    ⟨st, .returnedNil⟩
  | .AckiPodAuthenticationInfo => ⟨st, .returnedNil⟩
  | .GetiPodAuthenticationSignature challenge =>
    let st := Respond (.RetiPodAuthenticationSignature challenge) st
    ⟨st, .returnedNil⟩
  | .AckiPodAuthenticationStatus => ⟨st, .returnedNil⟩
  | .GetiPodOptions =>
    let st := Respond (.RetiPodOptions 0x00) st
    ⟨st, .returnedNil⟩
  | .RetAccessoryInfo => ⟨st, .returnedNil⟩
  | .GetiPodPreferences prefClassID =>
    let st := st.query (.PrefSettingID prefClassID)
    let st := Respond (.RetiPodPreferences prefClassID (dev.PrefSettingID prefClassID st.dev)) st
    ⟨st, .returnedNil⟩
  | .SetiPodPreferences prefClassID prefClassSettingID restoreOnExit =>
    let st := st.command
      (.SetPrefSettingID prefClassID prefClassSettingID (lib.ByteToBool restoreOnExit))
      (dev.SetPrefSettingID prefClassID prefClassSettingID (lib.ByteToBool restoreOnExit))
    ⟨st, .returnedNil⟩
  | .GetUIMode =>
    let st := st.query .UIMode
    let st := Respond (.RetUIMode (dev.UIMode st.dev)) st
    ⟨st, .returnedNil⟩
  | .SetUIMode _ =>
    let st := Respond (.ACK (ackSuccess req)) st
    ⟨st, .returnedNil⟩
  | .StartIDPS =>
    let st := st.command .StartIDPS dev.StartIDPS
    let st := Respond (.ACK (ackSuccess req)) st
    ⟨st, .returnedNil⟩
  | .SetFIDTokenValues msg =>
    let st := Respond (.RetFIDTokenValueACKs (ackFIDTokens msg)) st
    ⟨st, .returnedNil⟩
  | .EndIDPS accEndIDPSStatus =>
    match accEndIDPSStatus with
    | .AccEndIDPSStatusContinue =>
      let st := Respond (.IDPSStatus .IDPSStatusOK) st
      match st.transaction with
      | none => ⟨st, .panicked⟩
      | some _ =>
        let st := { st with transaction := some 0x0001 }
        let st := Respond .GetDevAuthenticationInfo st
        ⟨st, .returnedNil⟩
    | .AccEndIDPSStatusReset =>
      let st := Respond (.IDPSStatus .IDPSStatusTimeLimitNotExceeded) st
      ⟨st, .returnedNil⟩
    | .AccEndIDPSStatusAbandon =>
      let st := Respond (.IDPSStatus .IDPSStatusWillNotAccept) st
      ⟨st, .returnedNil⟩
    | .AccEndIDPSStatusNewLink => ⟨st, .returnedNil⟩
    | .other _ => ⟨st, .returnedNil⟩
  | .AccessoryStatusNotification => ⟨st, .returnedNil⟩
  | .SetEventNotification eventMask =>
    let st := st.command (.SetEventNotificationMask eventMask)
      (dev.SetEventNotificationMask eventMask)
    let st := Respond (.ACK (ackSuccess req)) st
    ⟨st, .returnedNil⟩
  | .GetiPodOptionsForLingo lingoID =>
    let st := st.query (.LingoOptions lingoID)
    let st := Respond (.RetiPodOptionsForLingo lingoID (dev.LingoOptions lingoID st.dev)) st
    ⟨st, .returnedNil⟩
  | .GetEventNotification =>
    let st := st.query .EventNotificationMask
    let st := Respond (.RetEventNotification (dev.EventNotificationMask st.dev)) st
    ⟨st, .returnedNil⟩
  | .GetSupportedEventNotification =>
    let st := st.query .SupportedEventNotificationMask
    let st := Respond
      (.RetSupportedEventNotification (dev.SupportedEventNotificationMask st.dev)) st
    ⟨st, .returnedNil⟩
  | .CancelCommand lingoID cmdID transactionID =>
    let st := st.command (.CancelCommand lingoID cmdID transactionID)
      (dev.CancelCommand lingoID cmdID transactionID)
    let st := Respond (.ACK (ackSuccess req)) st
    ⟨st, .returnedNil⟩
  | .SetAvailableCurrent => ⟨st, .returnedNil⟩
  | .RequestApplicationLaunch =>
    let st := Respond (.ACK (ackSuccess req)) st
    ⟨st, .returnedNil⟩
  | .GetNowPlayingFocusApp =>
    let st := Respond (.RetNowPlayingFocusApp (lib.StringToBytes "")) st
    ⟨st, .returnedNil⟩
  | .other _ => ⟨st, .returnedNil⟩

/-! ## Reading a trace -/

/-- The packets of a trace, in order, each with its transaction tag. -/
def responses : List Event → List (Option Nat × Response)
  | [] => []
  | Event.send t p :: es => (t, p) :: responses es
  | Event.call _ :: es => responses es

/-- The device calls of a trace, in order. -/
def deviceCalls : List Event → List DevCall
  | [] => []
  | Event.send _ _ :: es => deviceCalls es
  | Event.call c :: es => c :: deviceCalls es

/-- The trace without the calls of device methods that only read: the packets
sent and the calls that may change the device, in order. -/
def effects (tr : List Event) : List Event :=
  tr.filter fun e =>
    match e with
    | Event.send _ _ => true
    | Event.call c => c.isMutator

/-! ## The variants section 4 of the specification enumerates -/

/-- Written from the specification, to be compared with the cases of
`HandleGeneral`: whether a payload variant is one of those section 4 names.
Section 4.2 names `EnterRemoteUIMode`, `ExitRemoteUIMode` and the queries
`RequestRemoteUIMode` and `GetUIMode`; section 4.3 the three IDPS events;
section 4.5 the eight authentication messages; section 4.6 the name, version,
serial, lingo-version, max-payload and lingo-options queries, preference get
and set, event-notification mask get, set and query-supported, cancel-command,
application-launch, now-playing-focus, available-current and accessory-status.
`IdentifyDeviceLingoes`, `GetiPodOptions`, `RetAccessoryInfo` and `SetUIMode`
are named nowhere in section 4. -/
def enumeratedInSection4 : Payload → Bool
  | .RequestRemoteUIMode => true
  | .EnterRemoteUIMode => true
  | .ExitRemoteUIMode => true
  | .GetUIMode => true
  | .StartIDPS => true
  | .SetFIDTokenValues _ => true
  | .EndIDPS _ => true
  | .RetDevAuthenticationInfoV1 => true
  | .RetDevAuthenticationInfoV2 _ _ => true
  | .RetDevAuthenticationSignatureV1 _ => true
  | .RetDevAuthenticationSignatureV2 _ => true
  | .GetiPodAuthenticationInfo => true
  | .GetiPodAuthenticationSignature _ => true
  | .AckiPodAuthenticationInfo => true
  | .AckiPodAuthenticationStatus => true
  | .RequestiPodName => true
  | .RequestiPodSoftwareVersion => true
  | .RequestiPodSerialNum => true
  | .RequestLingoProtocolVersion _ => true
  | .RequestTransportMaxPayloadSize => true
  | .GetiPodOptionsForLingo _ => true
  | .GetiPodPreferences _ => true
  | .SetiPodPreferences _ _ _ => true
  | .GetEventNotification => true
  | .SetEventNotification _ => true
  | .GetSupportedEventNotification => true
  | .CancelCommand _ _ _ => true
  | .RequestApplicationLaunch => true
  | .GetNowPlayingFocusApp => true
  | .SetAvailableCurrent => true
  | .AccessoryStatusNotification => true
  | .IdentifyDeviceLingoes => false
  | .GetiPodOptions => false
  | .RetAccessoryInfo => false
  | .SetUIMode _ => false
  | .other _ => false

/-! ## A reference device

The repository has no implementation of `DeviceGeneral` next to the handler.
`memDevice` is a small in-memory one that stores what it is told; it serves to
evaluate the handler on concrete inputs. -/

/-- State of the in-memory device. -/
structure MemState where
  uiMode : UIMode
  prefs : List (Nat × Nat)
  eventMask : Nat
  idpsStarted : Bool
  cancelled : List (Nat × Nat × Nat)
  deriving DecidableEq, Repr

/-- The in-memory device: setters store their argument, getters read it
back, the remaining getters return constants. -/
def memDevice : DeviceGeneral MemState where
  UIMode s := s.uiMode
  SetUIMode m s := { s with uiMode := m }
  Name _ := "iPod"
  SoftwareVersion _ := (7, 1, 2)
  SerialNum _ := "abcd1234"
  LingoProtocolVersion _ _ := (1, 9)
  LingoOptions _ _ := 0
  PrefSettingID classID s := ((s.prefs.find? fun p => p.1 == classID).map Prod.snd).getD 0
  SetPrefSettingID classID settingID _ s := { s with prefs := (classID, settingID) :: s.prefs }
  StartIDPS s := { s with idpsStarted := true }
  SetEventNotificationMask mask s := { s with eventMask := mask }
  EventNotificationMask s := s.eventMask
  SupportedEventNotificationMask _ := 0xffff
  CancelCommand lingo cmd transaction s :=
    { s with cancelled := (lingo, cmd, transaction) :: s.cancelled }
  MaxPayload _ := 506

/-- The in-memory device in a given UI mode, with nothing else stored. -/
def memState (mode : UIMode) : MemState :=
  { uiMode := mode, prefs := [], eventMask := 0, idpsStarted := false, cancelled := [] }

/-- One choice of the `ipod` helpers, for evaluating the handler on concrete
inputs: a string is its characters followed by a zero byte, `true` is 1, a
non-zero byte is `true`. -/
def refLib : IpodLib where
  StringToBytes str := str.toList.map Char.toNat ++ [0]
  BoolToByte b := if b then 1 else 0
  ByteToBool n := decide (n ≠ 0)

/-- A variant of the in-memory device that opens the identification context in
Standard mode: its `StartIDPS` also resets the UI mode. -/
def resettingDevice : DeviceGeneral MemState :=
  { memDevice with
    StartIDPS := fun s => { s with uiMode := UIMode.UIModeStandart, idpsStarted := true } }

/-! ## Classifying the cases of the handler -/

/-- Whether the type switch of `HandleGeneral` has a `case` for the payload:
every variant but those that fall to the `default` arm. -/
def hasCase : Payload → Bool
  | .other _ => false
  | _ => true

/-- The cases of `HandleGeneral` whose body holds no statement at all (an
empty body or a comment such as `// pass`, `//pass`, `// notify acc`),
together with the outcome codes of `EndIDPS` for which the inner switch does
nothing: `NewLink` and any code it has no case for. -/
def silentCase : Payload → Bool
  | .AckiPodAuthenticationInfo => true
  | .AckiPodAuthenticationStatus => true
  | .RetAccessoryInfo => true
  | .AccessoryStatusNotification => true
  | .SetAvailableCurrent => true
  | .EndIDPS .AccEndIDPSStatusNewLink => true
  | .EndIDPS (.other _) => true
  | _ => false

/-- Whether a record is delimited by its first byte: the first byte equals the
number of bytes that follow it. -/
def selfDelimiting : List Nat → Bool
  | [] => false
  | len :: rest => len == rest.length

/-- Splitting a byte sequence into records by length prefix alone, as a
receiver of `FIDTokenValueACKs` does: each record is its length byte followed
by that many bytes. `fuel` bounds the number of records. -/
def splitRecords : Nat → List Nat → List (List Nat)
  | 0, _ => []
  | _, [] => []
  | fuel + 1, len :: rest => (len :: rest.take len) :: splitRecords fuel (rest.drop len)

/-! ## Properties of `ackFIDTokens` -/

/-- One iteration of the loop appends to the buffer what it would write to an
empty buffer. -/
theorem ackFIDTokens.loopBody_append (buf : List Nat) (token : FIDTokenValue) :
    ackFIDTokens.loopBody buf token = buf ++ ackFIDTokens.loopBody [] token := by
  unfold ackFIDTokens.loopBody
  split
  · split <;> simp
  · simp
  · simp

/-- The loop started on `buf` leaves `buf` followed by the records of the
tokens, in order. -/
theorem ackFIDTokens.foldl_loopBody (ts : List FIDTokenValue) (buf : List Nat) :
    ts.foldl ackFIDTokens.loopBody buf
      = buf ++ (ts.map (ackFIDTokens.loopBody [])).flatten := by
  induction ts generalizing buf with
  | nil => simp
  | cons t ts ih =>
    rw [List.foldl_cons, ih, ackFIDTokens.loopBody_append]
    simp

/-- The bytes `ackFIDTokens` returns are the records of the tokens, in order. -/
theorem ackFIDTokens_bytes (m : SetFIDTokenValues) :
    (ackFIDTokens m).FIDTokenValueACKs
      = (m.FIDTokenValues.map (ackFIDTokens.loopBody [])).flatten := by
  simp [ackFIDTokens, ackFIDTokens.foldl_loopBody]

/-- C1: for each of the nine (type, subtype) pairs of the table of section
4.4, `ackFIDTokens` applied to a batch holding exactly that token returns the
record bytes the table gives for the pair, whatever count the batch
declares. -/
theorem ackFIDTokens_single_table (n : Nat) :
    (ackFIDTokens ⟨n, [⟨0x00, 0x00⟩]⟩).FIDTokenValueACKs = [0x03, 0x00, 0x00, 0x00]
    ∧ (ackFIDTokens ⟨n, [⟨0x00, 0x01⟩]⟩).FIDTokenValueACKs = [0x03, 0x00, 0x01, 0x00]
    ∧ (ackFIDTokens ⟨n, [⟨0x00, 0x02⟩]⟩).FIDTokenValueACKs = [0x04, 0x00, 0x02, 0x00]
    ∧ (ackFIDTokens ⟨n, [⟨0x00, 0x03⟩]⟩).FIDTokenValueACKs = [0x04, 0x00, 0x03, 0x00, 0x00]
    ∧ (ackFIDTokens ⟨n, [⟨0x00, 0x04⟩]⟩).FIDTokenValueACKs = [0x04, 0x00, 0x04, 0x00, 0x00]
    ∧ (ackFIDTokens ⟨n, [⟨0x00, 0x05⟩]⟩).FIDTokenValueACKs = [0x03, 0x00, 0x05, 0x00]
    ∧ (ackFIDTokens ⟨n, [⟨0x00, 0x07⟩]⟩).FIDTokenValueACKs = [0x03, 0x00, 0x07, 0x00]
    ∧ (ackFIDTokens ⟨n, [⟨0x00, 0x08⟩]⟩).FIDTokenValueACKs = [0x03, 0x00, 0x08, 0x00]
    ∧ (ackFIDTokens ⟨n, [⟨0x01, 0x00⟩]⟩).FIDTokenValueACKs = [0x03, 0x01, 0x00, 0x00] :=
  ⟨rfl, rfl, rfl, rfl, rfl, rfl, rfl, rfl, rfl⟩

/-- A token of a type other than 0x01 whose (type, subtype) pair the table of
section 4.4 does not list writes nothing to the buffer. -/
theorem ackFIDTokens.loopBody_absent (token : FIDTokenValue)
    (habsent : specTable token.FIDType token.FIDSubtype = none)
    (hty : token.FIDType ≠ 0x01) :
    ackFIDTokens.loopBody [] token = [] := by
  unfold ackFIDTokens.loopBody
  split
  · split <;> simp_all [specTable]
  · simp_all
  · rfl

/-- C2: the pair (0x01, 0x01) is absent from the table of section 4.4, yet
`ackFIDTokens` applied to a batch holding only a token with that pair returns
the four bytes 03 01 00 00, the record of the pair (0x01, 0x00): the case for
type 0x01 does not look at the subtype. -/
theorem ackFIDTokens_type01_any_subtype :
    specTable 0x01 0x01 = none
    ∧ (ackFIDTokens ⟨1, [⟨0x01, 0x01⟩]⟩).FIDTokenValueACKs = [0x03, 0x01, 0x00, 0x00] :=
  ⟨by decide, rfl⟩

/-- C3, as stated, fails: a message declaring two tokens and holding one is
answered with the count 2, not with the number of tokens in its list. -/
theorem ackFIDTokens_count_counterexample :
    ¬ ((ackFIDTokens ⟨2, [⟨0x00, 0x00⟩]⟩).NumFIDTokenValueACKs
        = (SetFIDTokenValues.mk 2 [⟨0x00, 0x00⟩]).FIDTokenValues.length) := by
  decide

/-- C3, amended: the count `ackFIDTokens` returns is the count the message
declares in `NumFIDTokenValues`, whatever its tokens are and however many
bytes they produce; it is the number of tokens in the list exactly when the
declared count is. -/
theorem ackFIDTokens_count_declared (m : SetFIDTokenValues) :
    (ackFIDTokens m).NumFIDTokenValueACKs = m.NumFIDTokenValues
    ∧ ((ackFIDTokens m).NumFIDTokenValueACKs = m.FIDTokenValues.length
        ↔ m.NumFIDTokenValues = m.FIDTokenValues.length) :=
  ⟨rfl, Iff.rfl⟩

/-- C4: the bytes `ackFIDTokens` produces for a list `a` followed by a list `b`
are the bytes for `a` followed by the bytes for `b` (whatever counts the three
messages declare); the bytes for any list are the bytes for its single tokens,
concatenated in order; the empty list yields no bytes. -/
theorem ackFIDTokens_append (n na nb : Nat) (a b : List FIDTokenValue) :
    (ackFIDTokens ⟨n, a ++ b⟩).FIDTokenValueACKs
        = (ackFIDTokens ⟨na, a⟩).FIDTokenValueACKs ++ (ackFIDTokens ⟨nb, b⟩).FIDTokenValueACKs
    ∧ (ackFIDTokens ⟨n, a⟩).FIDTokenValueACKs
        = (a.map fun t => (ackFIDTokens ⟨1, [t]⟩).FIDTokenValueACKs).flatten
    ∧ (ackFIDTokens ⟨n, []⟩).FIDTokenValueACKs = [] := by
  refine ⟨?_, ?_, rfl⟩
  · simp [ackFIDTokens_bytes]
  · simp [ackFIDTokens_bytes]

/-! ## The UI-mode transition -/

/-- C5: for every `EnterRemoteUIMode` request handled on a device whose
`UIMode()` is Standard, the handler reads the mode, sends ACK-pending with
`MaxWait = 300`, calls `SetUIMode(Extended)` and sends ACK-success, in this
order and nothing else: the effects are exactly these two responses with the
one call of `SetUIMode(Extended)` between them, both responses carry the
transaction of the request, and the device is left in the state
`SetUIMode(Extended)` produces. -/
theorem HandleGeneral_enter_from_standard {σ : Type} (lib : IpodLib) (req : Packet)
    (dev : DeviceGeneral σ) (s : σ)
    (hreq : req.Payload = Payload.EnterRemoteUIMode)
    (hmode : dev.UIMode s = UIMode.UIModeStandart) :
    (HandleGeneral lib req dev s).state.trace
        = [Event.call DevCall.UIMode,
           Event.send req.Transaction
             (Response.ACKPending ⟨ACKStatus.ACKStatusPending, req.ID.CmdID, 300⟩),
           Event.call (DevCall.SetUIMode UIMode.UIModeExtended),
           Event.send req.Transaction
             (Response.ACK ⟨ACKStatus.ACKStatusSuccess, req.ID.CmdID⟩)]
    ∧ effects (HandleGeneral lib req dev s).state.trace
        = [Event.send req.Transaction
             (Response.ACKPending ⟨ACKStatus.ACKStatusPending, req.ID.CmdID, 300⟩),
           Event.call (DevCall.SetUIMode UIMode.UIModeExtended),
           Event.send req.Transaction
             (Response.ACK ⟨ACKStatus.ACKStatusSuccess, req.ID.CmdID⟩)]
    ∧ (HandleGeneral lib req dev s).state.dev = dev.SetUIMode UIMode.UIModeExtended s
    ∧ (HandleGeneral lib req dev s).completion = Completion.returnedNil := by
  obtain ⟨id, tx, payload⟩ := req
  simp only at hreq
  subst hreq
  simp [HandleGeneral, HandlerState.query, HandlerState.command, Respond, ackSuccess,
    ackPending, effects, DevCall.isMutator, hmode]

/-- Witness of C5: the in-memory device in Standard mode, request with command
identifier 5 and transaction 7. -/
theorem HandleGeneral_enter_from_standard_witness :
    memDevice.UIMode (memState UIMode.UIModeStandart) = UIMode.UIModeStandart
    ∧ (HandleGeneral refLib ⟨⟨0, 5⟩, some 7, Payload.EnterRemoteUIMode⟩ memDevice
        (memState UIMode.UIModeStandart)).state.trace
        = [Event.call DevCall.UIMode,
           Event.send (some 7) (Response.ACKPending ⟨ACKStatus.ACKStatusPending, 5, 300⟩),
           Event.call (DevCall.SetUIMode UIMode.UIModeExtended),
           Event.send (some 7) (Response.ACK ⟨ACKStatus.ACKStatusSuccess, 5⟩)] :=
  ⟨rfl, (HandleGeneral_enter_from_standard refLib ⟨⟨0, 5⟩, some 7, Payload.EnterRemoteUIMode⟩
    memDevice (memState UIMode.UIModeStandart) rfl rfl).1⟩

/-- C6: for every `EnterRemoteUIMode` request handled on a device whose
`UIMode()` is Extended, the handler reads the mode and sends one response,
ACK-success with the transaction of the request; it calls no other device
method, `SetUIMode` in particular, and leaves the device state as it was. -/
theorem HandleGeneral_enter_from_extended {σ : Type} (lib : IpodLib) (req : Packet)
    (dev : DeviceGeneral σ) (s : σ)
    (hreq : req.Payload = Payload.EnterRemoteUIMode)
    (hmode : dev.UIMode s = UIMode.UIModeExtended) :
    (HandleGeneral lib req dev s).state.trace
        = [Event.call DevCall.UIMode,
           Event.send req.Transaction
             (Response.ACK ⟨ACKStatus.ACKStatusSuccess, req.ID.CmdID⟩)]
    ∧ responses (HandleGeneral lib req dev s).state.trace
        = [(req.Transaction, Response.ACK ⟨ACKStatus.ACKStatusSuccess, req.ID.CmdID⟩)]
    ∧ deviceCalls (HandleGeneral lib req dev s).state.trace = [DevCall.UIMode]
    ∧ (HandleGeneral lib req dev s).state.dev = s
    ∧ (HandleGeneral lib req dev s).completion = Completion.returnedNil := by
  obtain ⟨id, tx, payload⟩ := req
  simp only at hreq
  subst hreq
  simp [HandleGeneral, HandlerState.query, Respond, ackSuccess, responses, deviceCalls, hmode]

/-- Witness of C6: the in-memory device in Extended mode. -/
theorem HandleGeneral_enter_from_extended_witness :
    memDevice.UIMode (memState UIMode.UIModeExtended) = UIMode.UIModeExtended
    ∧ (HandleGeneral refLib ⟨⟨0, 5⟩, some 7, Payload.EnterRemoteUIMode⟩ memDevice
        (memState UIMode.UIModeExtended)).state.trace
        = [Event.call DevCall.UIMode,
           Event.send (some 7) (Response.ACK ⟨ACKStatus.ACKStatusSuccess, 5⟩)] :=
  ⟨rfl, (HandleGeneral_enter_from_extended refLib ⟨⟨0, 5⟩, some 7, Payload.EnterRemoteUIMode⟩
    memDevice (memState UIMode.UIModeExtended) rfl rfl).1⟩

/-- C7, as stated, fails: on a device whose `UIMode()` is a value other than
Standard and Extended, an `ExitRemoteUIMode` request does not produce
ACK-pending, `SetUIMode(Standard)`, ACK-success; the handler sends one
ACK-success and does not call `SetUIMode`. -/
theorem HandleGeneral_exit_counterexample :
    ¬ (memDevice.UIMode (memState (UIMode.other 2)) ≠ UIMode.UIModeStandart →
        effects (HandleGeneral refLib ⟨⟨0, 5⟩, some 7, Payload.ExitRemoteUIMode⟩ memDevice
            (memState (UIMode.other 2))).state.trace
          = [Event.send (some 7) (Response.ACKPending ⟨ACKStatus.ACKStatusPending, 5, 300⟩),
             Event.call (DevCall.SetUIMode UIMode.UIModeStandart),
             Event.send (some 7) (Response.ACK ⟨ACKStatus.ACKStatusSuccess, 5⟩)]) := by
  decide

/-- C7, amended: `ExitRemoteUIMode` tests the mode against Extended. For every
`ExitRemoteUIMode` request, if the device's `UIMode()` differs from Extended,
and in particular if it is Standard, the handler reads the mode, sends exactly
one ACK-success and calls no other device method; if `UIMode()` is Extended it
sends ACK-pending with `MaxWait = 300`, then calls `SetUIMode(Standard)` once,
then sends ACK-success. -/
theorem HandleGeneral_exit {σ : Type} (lib : IpodLib) (req : Packet)
    (dev : DeviceGeneral σ) (s : σ)
    (hreq : req.Payload = Payload.ExitRemoteUIMode) :
    (dev.UIMode s ≠ UIMode.UIModeExtended →
        (HandleGeneral lib req dev s).state.trace
          = [Event.call DevCall.UIMode,
             Event.send req.Transaction
               (Response.ACK ⟨ACKStatus.ACKStatusSuccess, req.ID.CmdID⟩)]
        ∧ (HandleGeneral lib req dev s).state.dev = s)
    ∧ (dev.UIMode s = UIMode.UIModeStandart →
        (HandleGeneral lib req dev s).state.trace
          = [Event.call DevCall.UIMode,
             Event.send req.Transaction
               (Response.ACK ⟨ACKStatus.ACKStatusSuccess, req.ID.CmdID⟩)]
        ∧ (HandleGeneral lib req dev s).state.dev = s)
    ∧ (dev.UIMode s = UIMode.UIModeExtended →
        (HandleGeneral lib req dev s).state.trace
          = [Event.call DevCall.UIMode,
             Event.send req.Transaction
               (Response.ACKPending ⟨ACKStatus.ACKStatusPending, req.ID.CmdID, 300⟩),
             Event.call (DevCall.SetUIMode UIMode.UIModeStandart),
             Event.send req.Transaction
               (Response.ACK ⟨ACKStatus.ACKStatusSuccess, req.ID.CmdID⟩)]
        ∧ (HandleGeneral lib req dev s).state.dev = dev.SetUIMode UIMode.UIModeStandart s)
    ∧ (HandleGeneral lib req dev s).completion = Completion.returnedNil := by
  obtain ⟨id, tx, payload⟩ := req
  simp only at hreq
  subst hreq
  refine ⟨?_, ?_, ?_, ?_⟩
  · intro hmode
    simp [HandleGeneral, HandlerState.query, Respond, ackSuccess, hmode]
  · intro hmode
    simp [HandleGeneral, HandlerState.query, Respond, ackSuccess, hmode]
  · intro hmode
    simp [HandleGeneral, HandlerState.query, HandlerState.command, Respond, ackSuccess,
      ackPending, hmode]
  · simp only [HandleGeneral, HandlerState.query]
    split <;> rfl

/-- Witness of C7 amended: the in-memory device in a third mode answers with
one ACK-success, and in Extended mode with the pending/success pair around
`SetUIMode(Standard)`. -/
theorem HandleGeneral_exit_witness :
    (memDevice.UIMode (memState (UIMode.other 2)) ≠ UIMode.UIModeExtended
      ∧ (HandleGeneral refLib ⟨⟨0, 5⟩, some 7, Payload.ExitRemoteUIMode⟩ memDevice
            (memState (UIMode.other 2))).state.trace
          = [Event.call DevCall.UIMode,
             Event.send (some 7) (Response.ACK ⟨ACKStatus.ACKStatusSuccess, 5⟩)])
    ∧ (memDevice.UIMode (memState UIMode.UIModeExtended) = UIMode.UIModeExtended
      ∧ (HandleGeneral refLib ⟨⟨0, 5⟩, some 7, Payload.ExitRemoteUIMode⟩ memDevice
            (memState UIMode.UIModeExtended)).state.trace
          = [Event.call DevCall.UIMode,
             Event.send (some 7) (Response.ACKPending ⟨ACKStatus.ACKStatusPending, 5, 300⟩),
             Event.call (DevCall.SetUIMode UIMode.UIModeStandart),
             Event.send (some 7) (Response.ACK ⟨ACKStatus.ACKStatusSuccess, 5⟩)]) :=
  ⟨⟨by decide,
    ((HandleGeneral_exit refLib ⟨⟨0, 5⟩, some 7, Payload.ExitRemoteUIMode⟩ memDevice
      (memState (UIMode.other 2)) rfl).1 (by decide)).1⟩,
   ⟨rfl,
    ((HandleGeneral_exit refLib ⟨⟨0, 5⟩, some 7, Payload.ExitRemoteUIMode⟩ memDevice
      (memState UIMode.UIModeExtended) rfl).2.2.1 rfl).1⟩⟩

/-! ## The end of IDPS -/

/-- C8: for every `EndIDPS` request with outcome code Continue and inbound
transaction identifier `t`, the handler emits exactly two messages, in this
order: `IDPSStatus` with status OK tagged with `t`, then
`GetDevAuthenticationInfo` tagged with 0x0001; it calls no device method,
leaves the device state as it was and returns nil. -/
theorem HandleGeneral_endIDPS_continue {σ : Type} (lib : IpodLib) (req : Packet)
    (dev : DeviceGeneral σ) (s : σ) (t : Nat)
    (hreq : req.Payload = Payload.EndIDPS AccEndIDPSStatus.AccEndIDPSStatusContinue)
    (htx : req.Transaction = some t) :
    (HandleGeneral lib req dev s).state.trace
        = [Event.send (some t) (Response.IDPSStatus IDPSStatusCode.IDPSStatusOK),
           Event.send (some 0x0001) Response.GetDevAuthenticationInfo]
    ∧ deviceCalls (HandleGeneral lib req dev s).state.trace = []
    ∧ (HandleGeneral lib req dev s).state.dev = s
    ∧ (HandleGeneral lib req dev s).completion = Completion.returnedNil := by
  obtain ⟨id, tx, payload⟩ := req
  simp only at hreq htx
  subst hreq htx
  simp [HandleGeneral, Respond, deviceCalls]

/-- Witness of C8: a request with transaction 7. -/
theorem HandleGeneral_endIDPS_continue_witness :
    (HandleGeneral refLib
        ⟨⟨0, 0x3b⟩, some 7, Payload.EndIDPS AccEndIDPSStatus.AccEndIDPSStatusContinue⟩
        memDevice (memState UIMode.UIModeStandart)).state.trace
      = [Event.send (some 7) (Response.IDPSStatus IDPSStatusCode.IDPSStatusOK),
         Event.send (some 1) Response.GetDevAuthenticationInfo] :=
  (HandleGeneral_endIDPS_continue refLib
    ⟨⟨0, 0x3b⟩, some 7, Payload.EndIDPS AccEndIDPSStatus.AccEndIDPSStatusContinue⟩
    memDevice (memState UIMode.UIModeStandart) 7 rfl rfl).1

/-- C9: an `EndIDPS` request with outcome code Reset is answered with exactly
one response, `IDPSStatus` with status TimeLimitNotExceeded; with outcome code
Abandon, with exactly one response, `IDPSStatus` with status WillNotAccept;
with outcome code NewLink, with no response. In the three cases no device
method is called, each response carries the transaction of the request, the
transaction slot holds after the call what it held before, and the call
returns nil. -/
theorem HandleGeneral_endIDPS_not_continue {σ : Type} (lib : IpodLib) (id : LingoCmdID)
    (tx : Option Nat) (dev : DeviceGeneral σ) (s : σ) :
    ((HandleGeneral lib ⟨id, tx, Payload.EndIDPS AccEndIDPSStatus.AccEndIDPSStatusReset⟩
          dev s).state.trace
        = [Event.send tx (Response.IDPSStatus IDPSStatusCode.IDPSStatusTimeLimitNotExceeded)]
      ∧ (HandleGeneral lib ⟨id, tx, Payload.EndIDPS AccEndIDPSStatus.AccEndIDPSStatusAbandon⟩
          dev s).state.trace
        = [Event.send tx (Response.IDPSStatus IDPSStatusCode.IDPSStatusWillNotAccept)]
      ∧ (HandleGeneral lib ⟨id, tx, Payload.EndIDPS AccEndIDPSStatus.AccEndIDPSStatusNewLink⟩
          dev s).state.trace = [])
    ∧ ∀ status : AccEndIDPSStatus,
        status = AccEndIDPSStatus.AccEndIDPSStatusReset
          ∨ status = AccEndIDPSStatus.AccEndIDPSStatusAbandon
          ∨ status = AccEndIDPSStatus.AccEndIDPSStatusNewLink →
        deviceCalls (HandleGeneral lib ⟨id, tx, Payload.EndIDPS status⟩ dev s).state.trace = []
        ∧ (HandleGeneral lib ⟨id, tx, Payload.EndIDPS status⟩ dev s).state.dev = s
        ∧ (HandleGeneral lib ⟨id, tx, Payload.EndIDPS status⟩ dev s).state.transaction = tx
        ∧ (HandleGeneral lib ⟨id, tx, Payload.EndIDPS status⟩ dev s).completion
            = Completion.returnedNil := by
  refine ⟨⟨rfl, rfl, rfl⟩, ?_⟩
  intro status h
  rcases h with h | h | h <;> subst h <;>
    simp [HandleGeneral, Respond, deviceCalls]

/-- Witness of C9: the outcome code Abandon on the in-memory device. -/
theorem HandleGeneral_endIDPS_not_continue_witness :
    deviceCalls (HandleGeneral refLib
        ⟨⟨0, 0x3b⟩, some 7, Payload.EndIDPS AccEndIDPSStatus.AccEndIDPSStatusAbandon⟩
        memDevice (memState UIMode.UIModeStandart)).state.trace = []
    ∧ (HandleGeneral refLib
        ⟨⟨0, 0x3b⟩, some 7, Payload.EndIDPS AccEndIDPSStatus.AccEndIDPSStatusAbandon⟩
        memDevice (memState UIMode.UIModeStandart)).state.transaction = some 7 :=
  ⟨((HandleGeneral_endIDPS_not_continue refLib ⟨0, 0x3b⟩ (some 7) memDevice
      (memState UIMode.UIModeStandart)).2 AccEndIDPSStatus.AccEndIDPSStatusAbandon
      (Or.inr (Or.inl rfl))).1,
   ((HandleGeneral_endIDPS_not_continue refLib ⟨0, 0x3b⟩ (some 7) memDevice
      (memState UIMode.UIModeStandart)).2 AccEndIDPSStatus.AccEndIDPSStatusAbandon
      (Or.inr (Or.inl rfl))).2.2.1⟩

/-! ## Variants outside section 4 -/

/-- C10, as stated, fails: `SetUIMode` is a message section 4 of the
specification does not enumerate, and the handler answers it with a response
(ACK-success). -/
theorem HandleGeneral_not_enumerated_counterexample :
    ¬ (enumeratedInSection4 (Payload.SetUIMode UIMode.UIModeExtended) = false →
        responses (HandleGeneral refLib
            ⟨⟨0, 0x37⟩, some 7, Payload.SetUIMode UIMode.UIModeExtended⟩ memDevice
            (memState UIMode.UIModeStandart)).state.trace = []) := by
  decide

/-- C10, amended: for every inbound message whose variant section 4 of the
specification does not enumerate, the handler calls no device method, leaves
the device state and the transaction slot as they were and returns nil. It
sends no response when it has no case for the variant (the default arm) and
for `RetAccessoryInfo`; it sends exactly one response, tagged with the
transaction of the request, for the three variants outside section 4 that it
has an answering case for: ACK-success for `IdentifyDeviceLingoes` and for
`SetUIMode`, `RetiPodOptions` with options 0 for `GetiPodOptions`. -/
theorem HandleGeneral_not_enumerated {σ : Type} (lib : IpodLib) (req : Packet)
    (dev : DeviceGeneral σ) (s : σ)
    (hreq : enumeratedInSection4 req.Payload = false) :
    deviceCalls (HandleGeneral lib req dev s).state.trace = []
    ∧ (HandleGeneral lib req dev s).state.dev = s
    ∧ (HandleGeneral lib req dev s).state.transaction = req.Transaction
    ∧ (HandleGeneral lib req dev s).completion = Completion.returnedNil
    ∧ responses (HandleGeneral lib req dev s).state.trace
        = (match req.Payload with
          | Payload.IdentifyDeviceLingoes =>
            [(req.Transaction, Response.ACK ⟨ACKStatus.ACKStatusSuccess, req.ID.CmdID⟩)]
          | Payload.SetUIMode _ =>
            [(req.Transaction, Response.ACK ⟨ACKStatus.ACKStatusSuccess, req.ID.CmdID⟩)]
          | Payload.GetiPodOptions => [(req.Transaction, Response.RetiPodOptions 0x00)]
          | _ => []) := by
  obtain ⟨id, tx, payload⟩ := req
  cases payload <;> simp [enumeratedInSection4] at hreq <;>
    simp [HandleGeneral, Respond, ackSuccess, deviceCalls, responses]

/-- Witness of C10 amended: a payload of a type the handler has no case for
gets no response on the in-memory device. -/
theorem HandleGeneral_not_enumerated_witness :
    enumeratedInSection4 (Payload.other 99) = false
    ∧ responses (HandleGeneral refLib ⟨⟨0, 0x99⟩, some 7, Payload.other 99⟩ memDevice
        (memState UIMode.UIModeStandart)).state.trace = [] :=
  ⟨rfl, (HandleGeneral_not_enumerated refLib ⟨⟨0, 0x99⟩, some 7, Payload.other 99⟩ memDevice
    (memState UIMode.UIModeStandart) rfl).2.2.2.2⟩

/-! ## Completion -/

/-- The call of `HandleGeneral` returns nil for every request, device and
device state, except for an `EndIDPS` request with outcome code Continue that
has no transaction slot. -/
theorem HandleGeneral_returns_unless_nil_slot {σ : Type} (lib : IpodLib) (req : Packet)
    (dev : DeviceGeneral σ) (s : σ)
    (h : ¬ (req.Payload = Payload.EndIDPS AccEndIDPSStatus.AccEndIDPSStatusContinue
          ∧ req.Transaction = none)) :
    (HandleGeneral lib req dev s).completion = Completion.returnedNil := by
  obtain ⟨id, tx, payload⟩ := req
  cases payload
  case EndIDPS status =>
    cases status <;> cases tx <;> simp_all [HandleGeneral, Respond]
  case EnterRemoteUIMode =>
    simp only [HandleGeneral, HandlerState.query]
    split <;> rfl
  case ExitRemoteUIMode =>
    simp only [HandleGeneral, HandlerState.query]
    split <;> rfl
  case RetDevAuthenticationInfoV2 cur max =>
    simp only [HandleGeneral]
    split <;> rfl
  all_goals rfl

/-- C11: an `EndIDPS` request with outcome code Continue and a nil
`Transaction` pointer does not return: after `IDPSStatus` with status OK has
been sent, the assignment `*req.Transaction = 0x0001` panics, so the call does
not complete with a nil error. -/
theorem HandleGeneral_panics_on_nil_slot :
    (HandleGeneral refLib
        ⟨⟨0, 0x3b⟩, none, Payload.EndIDPS AccEndIDPSStatus.AccEndIDPSStatusContinue⟩
        memDevice (memState UIMode.UIModeStandart)).completion = Completion.panicked
    ∧ (HandleGeneral refLib
        ⟨⟨0, 0x3b⟩, none, Payload.EndIDPS AccEndIDPSStatus.AccEndIDPSStatusContinue⟩
        memDevice (memState UIMode.UIModeStandart)).state.trace
      = [Event.send none (Response.IDPSStatus IDPSStatusCode.IDPSStatusOK)] :=
  ⟨rfl, rfl⟩

/-! ## Preferences -/

/-- C12: for every preference class `X`, handling `GetiPodPreferences` with
class `X` reads `PrefSettingID(X)` and sends exactly one message,
`RetiPodPreferences` with class `X` and the setting the device currently
returns for `X`; and on a device that returns for a class the setting last
stored for it, handling `SetiPodPreferences(X, v, r)` and then
`GetiPodPreferences(X)` makes the second call answer with setting `v`. -/
theorem HandleGeneral_preferences {σ : Type} (lib : IpodLib) (dev : DeviceGeneral σ) (s : σ)
    (idSet idGet : LingoCmdID) (txSet txGet : Option Nat) (X v r : Nat)
    (hstores : ∀ (c w : Nat) (b : Bool) (st : σ),
      dev.PrefSettingID c (dev.SetPrefSettingID c w b st) = w) :
    (HandleGeneral lib ⟨idGet, txGet, Payload.GetiPodPreferences X⟩ dev s).state.trace
        = [Event.call (DevCall.PrefSettingID X),
           Event.send txGet (Response.RetiPodPreferences X (dev.PrefSettingID X s))]
    ∧ responses
        (HandleGeneral lib ⟨idGet, txGet, Payload.GetiPodPreferences X⟩ dev s).state.trace
        = [(txGet, Response.RetiPodPreferences X (dev.PrefSettingID X s))]
    ∧ responses
        (HandleGeneral lib ⟨idGet, txGet, Payload.GetiPodPreferences X⟩ dev
          (HandleGeneral lib ⟨idSet, txSet, Payload.SetiPodPreferences X v r⟩ dev
            s).state.dev).state.trace
        = [(txGet, Response.RetiPodPreferences X v)] := by
  refine ⟨rfl, rfl, ?_⟩
  simp [HandleGeneral, HandlerState.query, HandlerState.command, Respond, responses, hstores]

/-- The in-memory device returns for a class the setting last stored for it. -/
theorem memDevice_stores_preferences (c w : Nat) (b : Bool) (st : MemState) :
    memDevice.PrefSettingID c (memDevice.SetPrefSettingID c w b st) = w := by
  simp [memDevice]

/-- Witness of C12: class 3 set to 9 on the in-memory device, then read. -/
theorem HandleGeneral_preferences_witness :
    responses
      (HandleGeneral refLib ⟨⟨0, 0x29⟩, some 8, Payload.GetiPodPreferences 3⟩ memDevice
        (HandleGeneral refLib ⟨⟨0, 0x2b⟩, some 7, Payload.SetiPodPreferences 3 9 1⟩ memDevice
          (memState UIMode.UIModeStandart)).state.dev).state.trace
      = [(some 8, Response.RetiPodPreferences 3 9)] :=
  (HandleGeneral_preferences refLib memDevice (memState UIMode.UIModeStandart)
    ⟨0, 0x2b⟩ ⟨0, 0x29⟩ (some 7) (some 8) 3 9 1 memDevice_stores_preferences).2.2

/-! ## Number of responses -/

/-- C13, as stated, fails: the handler has a case for
`AckiPodAuthenticationInfo` (its body is `// pass`) and sends neither one nor
two responses for it, but none. -/
theorem HandleGeneral_response_count_counterexample :
    ¬ (hasCase Payload.AckiPodAuthenticationInfo = true →
        (responses (HandleGeneral refLib ⟨⟨0, 0x16⟩, some 7, Payload.AckiPodAuthenticationInfo⟩
            memDevice (memState UIMode.UIModeStandart)).state.trace).length = 1
        ∨ (responses (HandleGeneral refLib
            ⟨⟨0, 0x16⟩, some 7, Payload.AckiPodAuthenticationInfo⟩
            memDevice (memState UIMode.UIModeStandart)).state.trace).length = 2) := by
  decide

/-- C13, amended: for every inbound message other than `SetiPodPreferences`,
on a request that has a transaction slot when it is `EndIDPS` with outcome
code Continue: the handler sends nothing when it has no case for the variant
and when the case is a silent one (`AckiPodAuthenticationInfo`,
`AckiPodAuthenticationStatus`, `RetAccessoryInfo`,
`AccessoryStatusNotification`, `SetAvailableCurrent`, `EndIDPS` with outcome
code NewLink or with a code the inner switch has no case for); for every other
variant it has a case for, it sends exactly one message, or exactly two in a
fixed order: ACK-pending with `MaxWait = 300` then ACK-success (the UI-mode
transition), or `IDPSStatus` with status OK then `GetDevAuthenticationInfo`
(`EndIDPS` with outcome code Continue). -/
theorem HandleGeneral_response_count {σ : Type} (lib : IpodLib) (req : Packet)
    (dev : DeviceGeneral σ) (s : σ)
    (hset : ∀ c v r : Nat, req.Payload ≠ Payload.SetiPodPreferences c v r)
    (hslot : req.Payload = Payload.EndIDPS AccEndIDPSStatus.AccEndIDPSStatusContinue →
      req.Transaction ≠ none) :
    (hasCase req.Payload = false ∨ silentCase req.Payload = true →
        responses (HandleGeneral lib req dev s).state.trace = [])
    ∧ (hasCase req.Payload = true → silentCase req.Payload = false →
        (responses (HandleGeneral lib req dev s).state.trace).length = 1
        ∨ responses (HandleGeneral lib req dev s).state.trace
            = [(req.Transaction,
                 Response.ACKPending ⟨ACKStatus.ACKStatusPending, req.ID.CmdID, 300⟩),
               (req.Transaction, Response.ACK ⟨ACKStatus.ACKStatusSuccess, req.ID.CmdID⟩)]
        ∨ responses (HandleGeneral lib req dev s).state.trace
            = [(req.Transaction, Response.IDPSStatus IDPSStatusCode.IDPSStatusOK),
               (some 0x0001, Response.GetDevAuthenticationInfo)]) := by
  obtain ⟨id, tx, payload⟩ := req
  cases payload
  case SetiPodPreferences c v r => exact absurd rfl (hset c v r)
  case EndIDPS status =>
    cases status
    case AccEndIDPSStatusContinue =>
      cases tx
      · exact absurd rfl (hslot rfl)
      · simp [HandleGeneral, Respond, responses, hasCase, silentCase]
    all_goals simp [HandleGeneral, Respond, responses, hasCase, silentCase]
  case EnterRemoteUIMode =>
    by_cases hmode : dev.UIMode s = UIMode.UIModeExtended <;>
      simp [HandleGeneral, HandlerState.query, HandlerState.command, Respond, responses,
        hasCase, silentCase, ackSuccess, ackPending, hmode]
  case ExitRemoteUIMode =>
    by_cases hmode : dev.UIMode s = UIMode.UIModeExtended <;>
      simp [HandleGeneral, HandlerState.query, HandlerState.command, Respond, responses,
        hasCase, silentCase, ackSuccess, ackPending, hmode]
  case RetDevAuthenticationInfoV2 cur max =>
    by_cases hlt : cur < max <;>
      simp [HandleGeneral, Respond, responses, hasCase, silentCase, hlt]
  all_goals
    simp [HandleGeneral, HandlerState.query, HandlerState.command, Respond, responses,
      hasCase, silentCase]

/-- Witness of C13 amended: `StartIDPS` on the in-memory device gets exactly
one message. -/
theorem HandleGeneral_response_count_witness :
    (responses (HandleGeneral refLib ⟨⟨0, 0x38⟩, some 7, Payload.StartIDPS⟩ memDevice
        (memState UIMode.UIModeStandart)).state.trace).length = 1
    ∨ responses (HandleGeneral refLib ⟨⟨0, 0x38⟩, some 7, Payload.StartIDPS⟩ memDevice
        (memState UIMode.UIModeStandart)).state.trace
      = [(some 7, Response.ACKPending ⟨ACKStatus.ACKStatusPending, 0x38, 300⟩),
         (some 7, Response.ACK ⟨ACKStatus.ACKStatusSuccess, 0x38⟩)]
    ∨ responses (HandleGeneral refLib ⟨⟨0, 0x38⟩, some 7, Payload.StartIDPS⟩ memDevice
        (memState UIMode.UIModeStandart)).state.trace
      = [(some 7, Response.IDPSStatus IDPSStatusCode.IDPSStatusOK),
         (some 0x0001, Response.GetDevAuthenticationInfo)] :=
  (HandleGeneral_response_count refLib ⟨⟨0, 0x38⟩, some 7, Payload.StartIDPS⟩ memDevice
    (memState UIMode.UIModeStandart) (fun _ _ _ h => Payload.noConfusion h)
    (fun h => Payload.noConfusion h)).2 rfl rfl

/-! ## Who writes the UI mode -/

/-- C14, as stated, fails: `StartIDPS` is neither `EnterRemoteUIMode` nor
`ExitRemoteUIMode`, the handler does not call `SetUIMode` for it, and yet on a
device whose `StartIDPS` resets the UI mode the value of `UIMode()` after the
call differs from the value before it. -/
theorem HandleGeneral_UIMode_frame_counterexample :
    ¬ (Payload.StartIDPS ≠ Payload.EnterRemoteUIMode →
        Payload.StartIDPS ≠ Payload.ExitRemoteUIMode →
        resettingDevice.UIMode
            (HandleGeneral refLib ⟨⟨0, 0x38⟩, some 7, Payload.StartIDPS⟩ resettingDevice
              (memState UIMode.UIModeExtended)).state.dev
          = resettingDevice.UIMode (memState UIMode.UIModeExtended)) := by
  decide

/-- C14, amended: for every inbound message other than `EnterRemoteUIMode` and
`ExitRemoteUIMode` (the `SetUIMode`, `GetUIMode` and `RequestRemoteUIMode`
messages included), the handler never calls the device's `SetUIMode`; so on a
device whose other methods without result (`SetPrefSettingID`, `StartIDPS`,
`SetEventNotificationMask`, `CancelCommand`) leave the UI mode as it is, the
value returned by `UIMode()` is the same after the call as before it. -/
theorem HandleGeneral_UIMode_frame {σ : Type} (lib : IpodLib) (req : Packet)
    (dev : DeviceGeneral σ) (s : σ)
    (henter : req.Payload ≠ Payload.EnterRemoteUIMode)
    (hexit : req.Payload ≠ Payload.ExitRemoteUIMode) :
    (∀ m : UIMode,
        DevCall.SetUIMode m ∉ deviceCalls (HandleGeneral lib req dev s).state.trace)
    ∧ ((∀ (c w : Nat) (b : Bool) (st : σ),
          dev.UIMode (dev.SetPrefSettingID c w b st) = dev.UIMode st) →
       (∀ st : σ, dev.UIMode (dev.StartIDPS st) = dev.UIMode st) →
       (∀ (mask : Nat) (st : σ),
          dev.UIMode (dev.SetEventNotificationMask mask st) = dev.UIMode st) →
       (∀ (l c t : Nat) (st : σ), dev.UIMode (dev.CancelCommand l c t st) = dev.UIMode st) →
       dev.UIMode (HandleGeneral lib req dev s).state.dev = dev.UIMode s) := by
  obtain ⟨id, tx, payload⟩ := req
  cases payload
  case EnterRemoteUIMode => exact absurd rfl henter
  case ExitRemoteUIMode => exact absurd rfl hexit
  case EndIDPS status =>
    cases status <;> cases tx <;> simp [HandleGeneral, Respond, deviceCalls]
  case RetDevAuthenticationInfoV2 cur max =>
    by_cases hlt : cur < max <;> simp [HandleGeneral, Respond, deviceCalls, hlt]
  all_goals
    refine ⟨?_, ?_⟩
    · simp [HandleGeneral, HandlerState.query, HandlerState.command, Respond, deviceCalls]
    · intro hpref hidps hmask hcancel
      simp [HandleGeneral, HandlerState.query, HandlerState.command, Respond, hpref, hidps,
        hmask, hcancel]

/-- Witness of C14 amended: a `SetUIMode` message asking for Extended leaves
the in-memory device in Standard mode. -/
theorem HandleGeneral_UIMode_frame_witness :
    memDevice.UIMode
        (HandleGeneral refLib ⟨⟨0, 0x37⟩, some 7, Payload.SetUIMode UIMode.UIModeExtended⟩
          memDevice (memState UIMode.UIModeStandart)).state.dev
      = memDevice.UIMode (memState UIMode.UIModeStandart) :=
  (HandleGeneral_UIMode_frame refLib
    ⟨⟨0, 0x37⟩, some 7, Payload.SetUIMode UIMode.UIModeExtended⟩ memDevice
    (memState UIMode.UIModeStandart) (fun h => Payload.noConfusion h)
    (fun h => Payload.noConfusion h)).2
    (fun _ _ _ _ => rfl) (fun _ => rfl) (fun _ _ => rfl) (fun _ _ _ _ => rfl)

/-! ## Transaction tags -/

/-- C15: for every inbound request with transaction identifier `t`, every
message the handler emits is tagged with `t`, with one exception: the
`GetDevAuthenticationInfo` request emitted after `EndIDPS` with outcome code
Continue, which is tagged with 0x0001. No other message carries a tag other
than `t`, and `GetDevAuthenticationInfo` is emitted for no other request. -/
theorem HandleGeneral_transaction_tags {σ : Type} (lib : IpodLib) (req : Packet)
    (dev : DeviceGeneral σ) (s : σ) (t : Nat) (htx : req.Transaction = some t) :
    (∀ (tag : Option Nat) (p : Response),
        (tag, p) ∈ responses (HandleGeneral lib req dev s).state.trace →
        tag = some t
        ∨ (tag = some 0x0001 ∧ p = Response.GetDevAuthenticationInfo
            ∧ req.Payload = Payload.EndIDPS AccEndIDPSStatus.AccEndIDPSStatusContinue))
    ∧ (∀ (tag : Option Nat) (p : Response),
        (tag, p) ∈ responses (HandleGeneral lib req dev s).state.trace →
        p ≠ Response.GetDevAuthenticationInfo → tag = some t)
    ∧ (req.Payload = Payload.EndIDPS AccEndIDPSStatus.AccEndIDPSStatusContinue →
        responses (HandleGeneral lib req dev s).state.trace
          = [(some t, Response.IDPSStatus IDPSStatusCode.IDPSStatusOK),
             (some 0x0001, Response.GetDevAuthenticationInfo)]) := by
  obtain ⟨id, tx, payload⟩ := req
  simp only at htx
  subst htx
  cases payload
  case EndIDPS status =>
    cases status <;> simp [HandleGeneral, Respond, responses]
    tauto
  case EnterRemoteUIMode =>
    by_cases hmode : dev.UIMode s = UIMode.UIModeExtended <;>
      simp [HandleGeneral, HandlerState.query, HandlerState.command, Respond, responses, hmode]
    tauto
  case ExitRemoteUIMode =>
    by_cases hmode : dev.UIMode s = UIMode.UIModeExtended <;>
      simp [HandleGeneral, HandlerState.query, HandlerState.command, Respond, responses, hmode]
    tauto
  case RetDevAuthenticationInfoV2 cur max =>
    by_cases hlt : cur < max <;> simp [HandleGeneral, Respond, responses, hlt]
  all_goals
    simp [HandleGeneral, HandlerState.query, HandlerState.command, Respond, responses]

/-- Witness of C15: `EndIDPS` with outcome code Continue and transaction 7. -/
theorem HandleGeneral_transaction_tags_witness :
    responses (HandleGeneral refLib
        ⟨⟨0, 0x3b⟩, some 7, Payload.EndIDPS AccEndIDPSStatus.AccEndIDPSStatusContinue⟩
        memDevice (memState UIMode.UIModeStandart)).state.trace
      = [(some 7, Response.IDPSStatus IDPSStatusCode.IDPSStatusOK),
         (some 0x0001, Response.GetDevAuthenticationInfo)] :=
  (HandleGeneral_transaction_tags refLib
    ⟨⟨0, 0x3b⟩, some 7, Payload.EndIDPS AccEndIDPSStatus.AccEndIDPSStatusContinue⟩
    memDevice (memState UIMode.UIModeStandart) 7 rfl).2.2 rfl

/-! ## Device authentication -/

/-- C16: for every `RetDevAuthenticationInfoV2` message the handler sends
exactly one response and calls no device method: a plain ACK-success when
`CertCurrentSection < CertMaxSection`, and `AckDevAuthenticationInfo` with
status Supported otherwise, which includes the case where both sections
are 0. -/
theorem HandleGeneral_authInfoV2 {σ : Type} (lib : IpodLib) (id : LingoCmdID)
    (tx : Option Nat) (dev : DeviceGeneral σ) (s : σ) (cur max : Nat) :
    (cur < max →
        (HandleGeneral lib ⟨id, tx, Payload.RetDevAuthenticationInfoV2 cur max⟩ dev
            s).state.trace
          = [Event.send tx (Response.ACK ⟨ACKStatus.ACKStatusSuccess, id.CmdID⟩)])
    ∧ (max ≤ cur →
        (HandleGeneral lib ⟨id, tx, Payload.RetDevAuthenticationInfoV2 cur max⟩ dev
            s).state.trace
          = [Event.send tx
              (Response.AckDevAuthenticationInfo DevAuthInfoStatus.DevAuthInfoStatusSupported)])
    ∧ (HandleGeneral lib ⟨id, tx, Payload.RetDevAuthenticationInfoV2 0 0⟩ dev s).state.trace
          = [Event.send tx
              (Response.AckDevAuthenticationInfo DevAuthInfoStatus.DevAuthInfoStatusSupported)]
    ∧ (responses (HandleGeneral lib ⟨id, tx, Payload.RetDevAuthenticationInfoV2 cur max⟩ dev
            s).state.trace).length = 1
    ∧ deviceCalls (HandleGeneral lib ⟨id, tx, Payload.RetDevAuthenticationInfoV2 cur max⟩ dev
            s).state.trace = []
    ∧ (HandleGeneral lib ⟨id, tx, Payload.RetDevAuthenticationInfoV2 cur max⟩ dev
            s).state.dev = s := by
  refine ⟨?_, ?_, rfl, ?_⟩
  · intro hlt
    simp [HandleGeneral, Respond, ackSuccess, hlt]
  · intro hle
    simp [HandleGeneral, Respond, Nat.not_lt.mpr hle]
  · by_cases hlt : cur < max <;>
      simp [HandleGeneral, Respond, responses, deviceCalls, hlt]

/-- Witness of C16: section 1 of 3 is acknowledged with a plain ACK-success,
section 3 of 3 with status Supported. -/
theorem HandleGeneral_authInfoV2_witness :
    (HandleGeneral refLib ⟨⟨0, 0x15⟩, some 7, Payload.RetDevAuthenticationInfoV2 1 3⟩
        memDevice (memState UIMode.UIModeStandart)).state.trace
      = [Event.send (some 7) (Response.ACK ⟨ACKStatus.ACKStatusSuccess, 0x15⟩)]
    ∧ (HandleGeneral refLib ⟨⟨0, 0x15⟩, some 7, Payload.RetDevAuthenticationInfoV2 3 3⟩
        memDevice (memState UIMode.UIModeStandart)).state.trace
      = [Event.send (some 7)
          (Response.AckDevAuthenticationInfo DevAuthInfoStatus.DevAuthInfoStatusSupported)] :=
  ⟨(HandleGeneral_authInfoV2 refLib ⟨0, 0x15⟩ (some 7) memDevice
      (memState UIMode.UIModeStandart) 1 3).1 (by decide),
   (HandleGeneral_authInfoV2 refLib ⟨0, 0x15⟩ (some 7) memDevice
      (memState UIMode.UIModeStandart) 3 3).2.1 (by decide)⟩

/-- C17: for every two `RetDevAuthenticationSignatureV1` messages, and for
every two `RetDevAuthenticationSignatureV2` messages, that differ arbitrarily
in their signature bytes, and for every two device states, the handler emits
the same single response, `AckDevAuthenticationStatus` with status Passed; it
calls no device method and leaves the device state as it was. -/
theorem HandleGeneral_signature_ignored {σ : Type} (lib : IpodLib) (id : LingoCmdID)
    (tx : Option Nat) (dev : DeviceGeneral σ) (s s2 : σ) (sig sig2 : List Nat) :
    (HandleGeneral lib ⟨id, tx, Payload.RetDevAuthenticationSignatureV1 sig⟩ dev s).state.trace
        = [Event.send tx (Response.AckDevAuthenticationStatus DevAuthStatus.DevAuthStatusPassed)]
    ∧ (HandleGeneral lib ⟨id, tx, Payload.RetDevAuthenticationSignatureV2 sig⟩ dev
          s).state.trace
        = [Event.send tx (Response.AckDevAuthenticationStatus DevAuthStatus.DevAuthStatusPassed)]
    ∧ (HandleGeneral lib ⟨id, tx, Payload.RetDevAuthenticationSignatureV1 sig⟩ dev s).state.trace
        = (HandleGeneral lib ⟨id, tx, Payload.RetDevAuthenticationSignatureV1 sig2⟩ dev
            s2).state.trace
    ∧ (HandleGeneral lib ⟨id, tx, Payload.RetDevAuthenticationSignatureV2 sig⟩ dev s).state.trace
        = (HandleGeneral lib ⟨id, tx, Payload.RetDevAuthenticationSignatureV2 sig2⟩ dev
            s2).state.trace
    ∧ (HandleGeneral lib ⟨id, tx, Payload.RetDevAuthenticationSignatureV1 sig⟩ dev s).state.dev
        = s
    ∧ (HandleGeneral lib ⟨id, tx, Payload.RetDevAuthenticationSignatureV2 sig⟩ dev s).state.dev
        = s
    ∧ (HandleGeneral lib ⟨id, tx, Payload.RetDevAuthenticationSignatureV1 sig⟩ dev
          s).completion = Completion.returnedNil
    ∧ (HandleGeneral lib ⟨id, tx, Payload.RetDevAuthenticationSignatureV2 sig⟩ dev
          s).completion = Completion.returnedNil :=
  ⟨rfl, rfl, rfl, rfl, rfl, rfl, rfl, rfl⟩

/-! ## The transaction slot after the call -/

/-- C18, as stated, fails: after an `EndIDPS` request with outcome code
Continue and transaction 7 has been handled, the transaction slot of the
request holds 0x0001, not 7. -/
theorem HandleGeneral_slot_counterexample :
    ¬ ((HandleGeneral refLib
          ⟨⟨0, 0x3b⟩, some 7, Payload.EndIDPS AccEndIDPSStatus.AccEndIDPSStatusContinue⟩
          memDevice (memState UIMode.UIModeStandart)).state.transaction
        = (Packet.mk ⟨0, 0x3b⟩ (some 7)
            (Payload.EndIDPS AccEndIDPSStatus.AccEndIDPSStatusContinue)).Transaction) := by
  decide

/-- C18, amended: for every request other than `EndIDPS` with outcome code
Continue, the transaction slot of the request holds after the call what it
held on entry; for `EndIDPS` with outcome code Continue on a request with a
transaction slot, the call returns with the slot holding 0x0001: the override
is not undone, and a message sent afterwards through the same request is
tagged with 0x0001. -/
theorem HandleGeneral_slot {σ : Type} (lib : IpodLib) (req : Packet)
    (dev : DeviceGeneral σ) (s : σ) :
    (req.Payload ≠ Payload.EndIDPS AccEndIDPSStatus.AccEndIDPSStatusContinue →
        (HandleGeneral lib req dev s).state.transaction = req.Transaction)
    ∧ (req.Payload = Payload.EndIDPS AccEndIDPSStatus.AccEndIDPSStatusContinue →
        req.Transaction ≠ none →
        (HandleGeneral lib req dev s).state.transaction = some 0x0001
        ∧ (HandleGeneral lib req dev s).completion = Completion.returnedNil
        ∧ ∀ p : Response,
            (Respond p (HandleGeneral lib req dev s).state).trace
              = (HandleGeneral lib req dev s).state.trace ++ [Event.send (some 0x0001) p]) := by
  obtain ⟨id, tx, payload⟩ := req
  cases payload
  case EndIDPS status =>
    cases status <;> cases tx <;> simp [HandleGeneral, Respond]
  case EnterRemoteUIMode =>
    by_cases hmode : dev.UIMode s = UIMode.UIModeExtended <;>
      simp [HandleGeneral, HandlerState.query, HandlerState.command, Respond, hmode]
  case ExitRemoteUIMode =>
    by_cases hmode : dev.UIMode s = UIMode.UIModeExtended <;>
      simp [HandleGeneral, HandlerState.query, HandlerState.command, Respond, hmode]
  case RetDevAuthenticationInfoV2 cur max =>
    by_cases hlt : cur < max <;> simp [HandleGeneral, Respond, hlt]
  all_goals simp [HandleGeneral, HandlerState.query, HandlerState.command, Respond]

/-- Witness of C18 amended: `StartIDPS` leaves the slot at 7, `EndIDPS` with
outcome code Continue leaves it at 1. -/
theorem HandleGeneral_slot_witness :
    (HandleGeneral refLib ⟨⟨0, 0x38⟩, some 7, Payload.StartIDPS⟩ memDevice
        (memState UIMode.UIModeStandart)).state.transaction = some 7
    ∧ (HandleGeneral refLib
        ⟨⟨0, 0x3b⟩, some 7, Payload.EndIDPS AccEndIDPSStatus.AccEndIDPSStatusContinue⟩
        memDevice (memState UIMode.UIModeStandart)).state.transaction = some 1 :=
  ⟨(HandleGeneral_slot refLib ⟨⟨0, 0x38⟩, some 7, Payload.StartIDPS⟩ memDevice
      (memState UIMode.UIModeStandart)).1 (fun h => Payload.noConfusion h),
   ((HandleGeneral_slot refLib
      ⟨⟨0, 0x3b⟩, some 7, Payload.EndIDPS AccEndIDPSStatus.AccEndIDPSStatusContinue⟩
      memDevice (memState UIMode.UIModeStandart)).2 rfl (fun h => Option.noConfusion h)).1⟩

/-! ## Length prefixes of the records -/

/-- Every token other than (0x00, 0x02) that writes a record writes one whose
first byte is the number of bytes following it. -/
theorem ackFIDTokens.loopBody_selfDelimiting (token : FIDTokenValue)
    (hrecord : ackFIDTokens.loopBody [] token ≠ [])
    (htoken : ¬ (token.FIDType = 0x00 ∧ token.FIDSubtype = 0x02)) :
    selfDelimiting (ackFIDTokens.loopBody [] token) = true := by
  unfold ackFIDTokens.loopBody at hrecord ⊢
  split
  · split <;> simp_all [selfDelimiting]
  · simp [selfDelimiting]
  · simp_all

/-- C19: the token (0x00, 0x02) produces the record 04 00 02 00, whose first
byte 4 is not the number of bytes following it, 3. A receiver splitting by
length prefix the bytes produced for the tokens (0x00, 0x02), (0x00, 0x00),
which are the records 04 00 02 00 and 03 00 00 00, gets 04 00 02 00 03 as first
record and not the two records written. -/
theorem ackFIDTokens_accinfo_record_length :
    (ackFIDTokens ⟨1, [⟨0x00, 0x02⟩]⟩).FIDTokenValueACKs = [0x04, 0x00, 0x02, 0x00]
    ∧ selfDelimiting (ackFIDTokens ⟨1, [⟨0x00, 0x02⟩]⟩).FIDTokenValueACKs = false
    ∧ splitRecords 8 (ackFIDTokens ⟨2, [⟨0x00, 0x02⟩, ⟨0x00, 0x00⟩]⟩).FIDTokenValueACKs
        = [[0x04, 0x00, 0x02, 0x00, 0x03], [0x00], [0x00], [0x00]]
    ∧ splitRecords 8 (ackFIDTokens ⟨2, [⟨0x00, 0x02⟩, ⟨0x00, 0x00⟩]⟩).FIDTokenValueACKs
        ≠ [[0x04, 0x00, 0x02, 0x00], [0x03, 0x00, 0x00, 0x00]] := by
  decide

/-! ## Reaching the target mode -/

/-- C20, as stated, fails: the in-memory device returns from `UIMode()` the
value last passed to `SetUIMode`, and after an `ExitRemoteUIMode` request
handled in a mode that is neither Standard nor Extended its `UIMode()` is not
Standard. -/
theorem HandleGeneral_UIMode_target_counterexample :
    ¬ ((∀ (m : UIMode) (st : MemState), memDevice.UIMode (memDevice.SetUIMode m st) = m) →
        memDevice.UIMode
            (HandleGeneral refLib ⟨⟨0, 5⟩, some 7, Payload.ExitRemoteUIMode⟩ memDevice
              (memState (UIMode.other 2))).state.dev
          = UIMode.UIModeStandart) := by
  intro h
  exact absurd (h (fun _ _ => rfl)) (by decide)

/-- C20, amended: on a device whose `UIMode()` returns the value last passed to
`SetUIMode`, after the handler has handled `EnterRemoteUIMode` from any
starting mode the device's `UIMode()` is Extended, and a second
`EnterRemoteUIMode` sends exactly one ACK-success and leaves the device state
as it is. After it has handled `ExitRemoteUIMode` from the starting mode
Standard or Extended the device's `UIMode()` is Standard; from any starting
mode it is not Extended, and a second `ExitRemoteUIMode` sends exactly one
ACK-success and leaves the device state as it is. -/
theorem HandleGeneral_UIMode_target {σ : Type} (lib : IpodLib) (dev : DeviceGeneral σ) (s : σ)
    (id id2 : LingoCmdID) (tx tx2 : Option Nat)
    (hlast : ∀ (m : UIMode) (st : σ), dev.UIMode (dev.SetUIMode m st) = m) :
    (dev.UIMode (HandleGeneral lib ⟨id, tx, Payload.EnterRemoteUIMode⟩ dev s).state.dev
        = UIMode.UIModeExtended
      ∧ responses (HandleGeneral lib ⟨id2, tx2, Payload.EnterRemoteUIMode⟩ dev
          (HandleGeneral lib ⟨id, tx, Payload.EnterRemoteUIMode⟩ dev s).state.dev).state.trace
        = [(tx2, Response.ACK ⟨ACKStatus.ACKStatusSuccess, id2.CmdID⟩)]
      ∧ (HandleGeneral lib ⟨id2, tx2, Payload.EnterRemoteUIMode⟩ dev
          (HandleGeneral lib ⟨id, tx, Payload.EnterRemoteUIMode⟩ dev s).state.dev).state.dev
        = (HandleGeneral lib ⟨id, tx, Payload.EnterRemoteUIMode⟩ dev s).state.dev)
    ∧ ((dev.UIMode s = UIMode.UIModeStandart ∨ dev.UIMode s = UIMode.UIModeExtended →
        dev.UIMode (HandleGeneral lib ⟨id, tx, Payload.ExitRemoteUIMode⟩ dev s).state.dev
          = UIMode.UIModeStandart)
      ∧ dev.UIMode (HandleGeneral lib ⟨id, tx, Payload.ExitRemoteUIMode⟩ dev s).state.dev
        ≠ UIMode.UIModeExtended
      ∧ responses (HandleGeneral lib ⟨id2, tx2, Payload.ExitRemoteUIMode⟩ dev
          (HandleGeneral lib ⟨id, tx, Payload.ExitRemoteUIMode⟩ dev s).state.dev).state.trace
        = [(tx2, Response.ACK ⟨ACKStatus.ACKStatusSuccess, id2.CmdID⟩)]
      ∧ (HandleGeneral lib ⟨id2, tx2, Payload.ExitRemoteUIMode⟩ dev
          (HandleGeneral lib ⟨id, tx, Payload.ExitRemoteUIMode⟩ dev s).state.dev).state.dev
        = (HandleGeneral lib ⟨id, tx, Payload.ExitRemoteUIMode⟩ dev s).state.dev) := by
  have henter : dev.UIMode (HandleGeneral lib ⟨id, tx, Payload.EnterRemoteUIMode⟩ dev s).state.dev
      = UIMode.UIModeExtended := by
    by_cases hmode : dev.UIMode s = UIMode.UIModeExtended <;>
      simp [HandleGeneral, HandlerState.query, HandlerState.command, Respond, hmode, hlast]
  have hexit : dev.UIMode (HandleGeneral lib ⟨id, tx, Payload.ExitRemoteUIMode⟩ dev s).state.dev
      ≠ UIMode.UIModeExtended := by
    by_cases hmode : dev.UIMode s = UIMode.UIModeExtended <;>
      simp [HandleGeneral, HandlerState.query, HandlerState.command, Respond, hmode, hlast]
  refine ⟨⟨henter, ?_, ?_⟩, ⟨?_, hexit, ?_, ?_⟩⟩
  · generalize (HandleGeneral lib ⟨id, tx, Payload.EnterRemoteUIMode⟩ dev s).state.dev = s1
      at henter
    simp [HandleGeneral, HandlerState.query, Respond, responses, ackSuccess, henter]
  · generalize (HandleGeneral lib ⟨id, tx, Payload.EnterRemoteUIMode⟩ dev s).state.dev = s1
      at henter
    simp [HandleGeneral, HandlerState.query, Respond, henter]
  · rintro (hmode | hmode) <;>
      simp [HandleGeneral, HandlerState.query, HandlerState.command, Respond, hmode, hlast]
  · generalize (HandleGeneral lib ⟨id, tx, Payload.ExitRemoteUIMode⟩ dev s).state.dev = s1
      at hexit
    simp [HandleGeneral, HandlerState.query, Respond, responses, ackSuccess, hexit]
  · generalize (HandleGeneral lib ⟨id, tx, Payload.ExitRemoteUIMode⟩ dev s).state.dev = s1
      at hexit
    simp [HandleGeneral, HandlerState.query, Respond, hexit]

/-- Witness of C20 amended: the in-memory device, entered from Standard mode,
is in Extended mode afterwards. -/
theorem HandleGeneral_UIMode_target_witness :
    memDevice.UIMode
        (HandleGeneral refLib ⟨⟨0, 5⟩, some 7, Payload.EnterRemoteUIMode⟩ memDevice
          (memState UIMode.UIModeStandart)).state.dev
      = UIMode.UIModeExtended :=
  (HandleGeneral_UIMode_target refLib memDevice (memState UIMode.UIModeStandart)
    ⟨0, 5⟩ ⟨0, 5⟩ (some 7) (some 8) (fun _ _ => rfl)).1.1

end General
